import Mathlib

/-!
Shallow embedding of the toytcp connection core (src/src/tcp.rs) and proofs
about its per-state handlers, the send/recv user paths, the close path, the
retransmission timer scan, and the payload-reassembly procedure.

Machine integers of the source (u32 sequence numbers, u16 windows, usize
offsets) are embedded as `Nat`; additions that the source performs on a
fixed-width integer are reduced explicitly modulo the width, and a
subtraction or slice index that makes the Rust code abort (overflow check or
out-of-bounds index) is modelled by an `Option` result of `none`.
-/

namespace ToyTcp

/-- Modulus of a 32-bit machine integer. -/
def u32Mod : Nat := 4294967296

/-- Modulus of a 16-bit machine integer. -/
def u16Mod : Nat := 65536

/-- Modelled from the spec: the tcpflags module is not under src/; only the
SYN, ACK and FIN bits of the standard TCP flag bitfield are interpreted. -/
def FIN : Nat := 1

/-- Modelled from the spec: SYN bit of the standard TCP flag bitfield. -/
def SYN : Nat := 2

/-- Modelled from the spec: ACK bit of the standard TCP flag bitfield. -/
def ACK : Nat := 16

/-- Maximum segment size (tcp.rs 24). -/
def MSS : Nat := 1460

/-- Retry cap for retransmissions (tcp.rs 23). -/
def MAX_TRANSMITTION : Nat := 5

/-- Retransmission timeout in seconds (tcp.rs 26). -/
def RETRANSMITTION_TIMEOUT : Nat := 3

/-- Connection states handled by the source (socket.rs is not under src/;
the variant names appear verbatim in tcp.rs). -/
inductive TcpStatus where
  | Listen
  | SynSent
  | SynRcvd
  | Established
  | FinWait1
  | FinWait2
  | TimeWait
  | CloseWait
  | LastAck
  deriving DecidableEq, Repr

/-- Send-side parameter block of a socket (spec section 3; field names appear
verbatim in tcp.rs as socket.send_param.*). -/
structure SendParam where
  initial_seq : Nat
  unacked_seq : Nat
  next : Nat
  window : Nat
  deriving DecidableEq, Repr

/-- Receive-side parameter block of a socket (socket.recv_param.* in tcp.rs). -/
structure RecvParam where
  initial_seq : Nat
  next : Nat
  tail : Nat
  window : Nat
  deriving DecidableEq, Repr

/-- Fields of an inbound TCP segment that the handlers read: get_seq, get_ack,
get_flag and payload in tcp.rs. -/
structure TCPPacket where
  seq : Nat
  ack : Nat
  flag : Nat
  payload : List Nat
  deriving DecidableEq, Repr

/-- Retransmission-queue entry: the encoded segment, its latest transmission
time and the attempt count (fields appear verbatim in the timer, tcp.rs
672-711). -/
structure RetransEntry where
  packet : TCPPacket
  latest_transmission_time : Nat
  transmission_count : Nat
  deriving DecidableEq, Repr

/-- Connection record: the fields of Socket that tcp.rs reads and writes.
listening_socket holds the parent listener's identifier when present. -/
structure Socket where
  status : TcpStatus
  send_param : SendParam
  recv_param : RecvParam
  recv_buffer : List Nat
  retransmission_queue : List RetransEntry
  listening_socket : Option Nat
  deriving DecidableEq, Repr

/-- Event kinds published on the condition variable (tcp.rs 37-42). -/
inductive TCPEventKind where
  | ConnectionCompleted
  | Acked
  | DataArrived
  | ConnectionClosed
  deriving DecidableEq, Repr

/-- An outgoing segment as passed to send_tcp_packet: sequence,
acknowledgement, flags, payload. -/
structure OutSeg where
  seq : Nat
  ack : Nat
  flag : Nat
  payload : List Nat
  deriving DecidableEq, Repr

/-- Result of one handler invocation: the mutated socket, the segments sent
and the events published, in order. -/
structure HandlerOut where
  socket : Socket
  segs : List OutSeg
  events : List TCPEventKind
  deriving DecidableEq, Repr

/-- Embedding of delete_acked_segment_from_retransmissio_queue (tcp.rs
455-470), parameterised by the already-updated unacked_seq: pops entries
whose sequence is below unacked_seq, crediting each popped entry's payload
length to the send window (a u16 addition) and publishing one Acked event
per popped entry. Returns the remaining queue, the updated window and the
number of Acked events. -/
def delete_acked_loop (unacked_seq : Nat) : List RetransEntry → Nat →
    List RetransEntry × Nat × Nat
  | [], window => ([], window, 0)
  | item :: rest, window =>
    if item.packet.seq < unacked_seq then
      let r := delete_acked_loop unacked_seq rest
        ((window + item.packet.payload.length) % u16Mod)
      (r.1, r.2.1, r.2.2 + 1)
    else
      (item :: rest, window, 0)

/-- Queue pruning applied to a socket; the second component counts the Acked
events published. -/
def delete_acked_segment (s : Socket) : Socket × Nat :=
  let r := delete_acked_loop s.send_param.unacked_seq s.retransmission_queue
    s.send_param.window
  ({ s with retransmission_queue := r.1,
            send_param := { s.send_param with window := r.2.1 } }, r.2.2)

/-- The bare ACK emitted at the end of process_payload when any byte was
copied (tcp.rs 756-763); it carries the already-updated recv.next. -/
def payload_reply (s : Socket) (copy_size : Nat) : List OutSeg :=
  if 0 < copy_size then
    [{ seq := s.send_param.next, ack := s.recv_param.next, flag := ACK,
       payload := [] }]
  else []

/-- Write offset into the receive buffer computed at tcp.rs 738-739:
(recv_buffer.len - recv.window) + (seq - recv.next). -/
def payload_offset (s : Socket) (p : TCPPacket) : Nat :=
  s.recv_buffer.length - s.recv_param.window + (p.seq - s.recv_param.next)

/-- Number of payload bytes copied, tcp.rs 741:
min(payload.len, recv_buffer.len - offset). -/
def payload_copy_size (s : Socket) (p : TCPPacket) : Nat :=
  min p.payload.length (s.recv_buffer.length - payload_offset s p)

/-- Receive buffer after the copy at tcp.rs 742-743: the copied prefix of the
payload overwrites the copy_size positions starting at the offset. -/
def payload_new_buffer (s : Socket) (p : TCPPacket) : List Nat :=
  s.recv_buffer.take (payload_offset s p)
    ++ p.payload.take (payload_copy_size s p)
    ++ s.recv_buffer.drop (payload_offset s p + payload_copy_size s p)

/-- New recv.tail computed at tcp.rs 746-747: max(tail, seq + copy_size),
the addition performed on u32. -/
def payload_new_tail (s : Socket) (p : TCPPacket) : Nat :=
  max s.recv_param.tail ((p.seq + payload_copy_size s p) % u32Mod)

/-- Embedding of process_payload (tcp.rs 733-770). A none result models an
abort of the Rust code: the u32 subtraction seq - recv.next overflows the
checked arithmetic when seq < recv.next (and in release mode the wrapped
offset makes the slice index out of bounds), an offset beyond the buffer
length makes len - offset overflow or the slice index out of bounds, a
window smaller than the truncated in-order span makes the u16 subtraction
on recv.window overflow, and a window larger than the buffer makes
len - window overflow. -/
def process_payload (s : Socket) (p : TCPPacket) : Option HandlerOut :=
  if s.recv_buffer.length < s.recv_param.window then none
  else if p.seq < s.recv_param.next then none
  else if s.recv_buffer.length < payload_offset s p then none
  else if p.seq = s.recv_param.next then
    if s.recv_param.window < (payload_new_tail s p - p.seq) % u16Mod then none
    else
      let s1 := { s with
                    recv_buffer := payload_new_buffer s p,
                    recv_param := { s.recv_param with
                                      tail := payload_new_tail s p,
                                      next := payload_new_tail s p,
                                      window := s.recv_param.window
                                        - (payload_new_tail s p - p.seq) % u16Mod } }
      some { socket := s1, segs := payload_reply s1 (payload_copy_size s p),
             events := [TCPEventKind.DataArrived] }
  else
    let s1 := { s with
                  recv_buffer := payload_new_buffer s p,
                  recv_param := { s.recv_param with
                                    tail := payload_new_tail s p } }
    some { socket := s1, segs := payload_reply s1 (payload_copy_size s p),
           events := [TCPEventKind.DataArrived] }

/-- Shared tail of established_handler after the ACK accounting: the ACK-flag
check, payload processing and FIN processing (tcp.rs 486-508). ackedCount is
the number of Acked events already published by the pruning. -/
def est_after_ack (s : Socket) (p : TCPPacket) (ackedCount : Nat) :
    Option HandlerOut :=
  if p.flag &&& ACK = 0 then
    some { socket := s, segs := [],
           events := List.replicate ackedCount TCPEventKind.Acked }
  else
    (if p.payload ≠ [] then process_payload s p
     else some { socket := s, segs := [], events := [] }).bind (fun r =>
      if 0 < p.flag &&& FIN then
        let s2 := { r.socket with
                    recv_param := { r.socket.recv_param with
                      next := (p.seq + 1) % u32Mod },
                    status := TcpStatus.CloseWait }
        some { socket := s2,
               segs := r.segs ++ [{ seq := s2.send_param.next, ack := s2.recv_param.next, flag := ACK, payload := [] }],
               events := List.replicate ackedCount TCPEventKind.Acked
                 ++ r.events ++ [TCPEventKind.DataArrived] }
      else
        some { socket := r.socket, segs := r.segs,
               events := List.replicate ackedCount TCPEventKind.Acked ++ r.events })

/-- Embedding of established_handler (tcp.rs 472-509). The ACK accounting at
the top runs before the ACK-flag check: an in-window ack is recorded and the
queue pruned, an ack beyond send.next drops the segment. -/
def established_handler (s : Socket) (p : TCPPacket) : Option HandlerOut :=
  if s.send_param.unacked_seq < p.ack ∧ p.ack ≤ s.send_param.next then
    let s1 := { s with send_param := { s.send_param with unacked_seq := p.ack } }
    let r := delete_acked_segment s1
    est_after_ack r.1 p r.2
  else if s.send_param.next < p.ack then
    some { socket := s, segs := [], events := [] }
  else
    est_after_ack s p 0

/-- Shared tail of finwait_handler after the ACK accounting (tcp.rs 576-605):
ACK-flag check, payload processing, the FIN-WAIT-1 to FIN-WAIT-2 transition
and FIN processing. -/
def fw_after_ack (s : Socket) (p : TCPPacket) (ackedCount : Nat) :
    Option HandlerOut :=
  if p.flag &&& ACK = 0 then
    some { socket := s, segs := [],
           events := List.replicate ackedCount TCPEventKind.Acked }
  else
    (if p.payload ≠ [] then process_payload s p
     else some { socket := s, segs := [], events := [] }).bind (fun r =>
      let s2 := if r.socket.status = TcpStatus.FinWait1 ∧
          r.socket.send_param.next = r.socket.send_param.unacked_seq then
          { r.socket with status := TcpStatus.FinWait2 }
        else r.socket
      if 0 < p.flag &&& FIN then
        let s3 := { s2 with
                    recv_param := { s2.recv_param with
                      next := (s2.recv_param.next + 1) % u32Mod } }
        some { socket := s3,
               segs := r.segs ++ [{ seq := s3.send_param.next, ack := s3.recv_param.next, flag := ACK, payload := [] }],
               events := List.replicate ackedCount TCPEventKind.Acked
                 ++ r.events ++ [TCPEventKind.ConnectionClosed] }
      else
        some { socket := s2, segs := r.segs,
               events := List.replicate ackedCount TCPEventKind.Acked ++ r.events })

/-- Embedding of finwait_handler (tcp.rs 564-606). -/
def finwait_handler (s : Socket) (p : TCPPacket) : Option HandlerOut :=
  if s.send_param.unacked_seq < p.ack ∧ p.ack ≤ s.send_param.next then
    let s1 := { s with send_param := { s.send_param with unacked_seq := p.ack } }
    let r := delete_acked_segment s1
    fw_after_ack r.1 p r.2
  else if s.send_param.next < p.ack then
    some { socket := s, segs := [], events := [] }
  else
    fw_after_ack s p 0

/-- Embedding of synrcvd_handler (tcp.rs 415-452): the handshake-completing
ACK. The push onto the parent listener's acceptance queue is represented by
the ConnectionCompleted event, published exactly when a listening socket is
recorded. -/
def synrcvd_handler (s : Socket) (p : TCPPacket) : HandlerOut :=
  if 0 < p.flag &&& ACK ∧ s.send_param.unacked_seq ≤ p.ack ∧
      p.ack ≤ s.send_param.next then
    { socket := { s with
                  recv_param := { s.recv_param with next := p.seq },
                  send_param := { s.send_param with unacked_seq := p.ack },
                  status := TcpStatus.Established },
      segs := [],
      events := match s.listening_socket with
        | some _ => [TCPEventKind.ConnectionCompleted]
        | none => [] }
  else
    { socket := s, segs := [], events := [] }

/-- Embedding of close_handler (tcp.rs 608-612): in CLOSE-WAIT / LAST-ACK the
packet's ack is recorded unconditionally. -/
def close_handler (s : Socket) (p : TCPPacket) : Socket :=
  { s with send_param := { s.send_param with unacked_seq := p.ack } }

/-- Send size computed at tcp.rs 149-152: min(MSS, min(window, remaining)). -/
def computeSendSize (window remaining : Nat) : Nat :=
  min MSS (min window remaining)

/-- Embedding of the inner wait loop of send (tcp.rs 155-173): while the
computed size is zero the caller parks on Acked; env yields the send window
re-read from the socket after each wake. Returns the window in effect, the
nonzero send size and the unconsumed environment; none models a caller
blocked forever on a window that never opens. -/
def awaitWindow (remaining : Nat) : List Nat → Nat → Option (Nat × Nat × List Nat)
  | env, window =>
    if computeSendSize window remaining = 0 then
      match env with
      | [] => none
      | w :: env2 => awaitWindow remaining env2 w
    else some (window, computeSendSize window remaining, env)

/-- Final send-side state reported by the send loop together with the
segments placed on the wire. -/
structure SendResult where
  segs : List OutSeg
  next : Nat
  window : Nat
  deriving DecidableEq, Repr

/-- Embedding of the send loop (tcp.rs 142-191): while the cursor has not
reached the end of the buffer, compute the send size (waiting on Acked while
it is zero), transmit one ACK segment carrying sequence send.next and
acknowledgement recv.next, then advance the cursor and send.next by the
segment length and shrink send.window by it. Fuel bounds the number of
iterations; every successful iteration transmits at least one byte. -/
def sendLoop : Nat → List Nat → Nat → Nat → Nat → List Nat → Nat →
    Option SendResult
  | 0, _, _, _, _, _, _ => none
  | fuel + 1, env, window, next, recvNext, buffer, cursor =>
    if cursor < buffer.length then
      match awaitWindow (buffer.length - cursor) env window with
      | none => none
      | some (w, sz, env2) =>
        match sendLoop fuel env2 (w - sz) ((next + sz) % u32Mod) recvNext
            buffer (cursor + sz) with
        | none => none
        | some r =>
          some { r with segs := { seq := next, ack := recvNext, flag := ACK, payload := (buffer.drop cursor).take sz } :: r.segs }
    else
      some { segs := [], next := next, window := window }

/-- Embedding of send (tcp.rs 139-194): the loop with enough fuel, starting
at cursor zero. send returns as soon as the last byte is on the wire; the
empty environment corresponds to a run during which no Acked event is ever
delivered. -/
def send (env : List Nat) (window next recvNext : Nat) (buffer : List Nat) :
    Option SendResult :=
  sendLoop (buffer.length + 1) env window next recvNext buffer 0

/-- Bytes available to recv (tcp.rs 208): recv_buffer.len - recv.window. -/
def recvAvailable (s : Socket) : Nat :=
  s.recv_buffer.length - s.recv_param.window

/-- Statuses on which a recv with no available bytes returns instead of
waiting (tcp.rs 212-215): the peer's FIN has been received. -/
def isPeerFinStatus : TcpStatus → Bool
  | TcpStatus.CloseWait => true
  | TcpStatus.LastAck => true
  | TcpStatus.TimeWait => true
  | _ => false

/-- Embedding of the wait loop of recv (tcp.rs 210-228): while no byte is
available, break on a peer-FIN status, otherwise park on DataArrived; env
yields the socket state re-read after each wake. none models a caller
blocked forever, or the usize overflow of the availability computation when
the window exceeds the buffer length. -/
def recvWait : List Socket → Socket → Option Socket
  | env, s =>
    if s.recv_buffer.length < s.recv_param.window then none
    else if recvAvailable s = 0 then
      if isPeerFinStatus s.status then some s
      else
        match env with
        | [] => none
        | s2 :: env2 => recvWait env2 s2
    else some s

/-- Value of one recv call: the returned count, the bytes written into the
caller's buffer, and the mutated socket. -/
structure RecvResult where
  count : Nat
  out : List Nat
  socket : Socket
  deriving DecidableEq, Repr

/-- Embedding of the copy-out tail of recv (tcp.rs 229-234): copy
min(out_buffer.len, available) bytes from the front of recv_buffer, shift
the buffer left by that amount (the final copy_size positions keep their old
contents, as copy_within leaves them), and credit the amount to
recv.window. -/
def recvFinish (s : Socket) (outLen : Nat) : RecvResult :=
  let copy_size := min outLen (recvAvailable s)
  { count := copy_size,
    out := s.recv_buffer.take copy_size,
    socket := { s with
                  recv_buffer := s.recv_buffer.drop copy_size
                    ++ s.recv_buffer.drop (s.recv_buffer.length - copy_size),
                  recv_param := { s.recv_param with
                                    window := (s.recv_param.window + copy_size)
                                      % u16Mod } } }

/-- Embedding of recv (tcp.rs 198-235): wait until a byte is available or a
peer-FIN status is seen, then copy out. -/
def recv (env : List Socket) (s : Socket) (outLen : Nat) : Option RecvResult :=
  (recvWait env s).map (fun s2 => recvFinish s2 outLen)

/-- Outcome of close (tcp.rs 252-269): ESTABLISHED and CLOSE-WAIT park on
ConnectionClosed and then remove the registry entry, LISTEN is removed
immediately, every other status returns silently. -/
inductive CloseOutcome where
  | waitThenRemove
  | removeNow
  | silent
  deriving DecidableEq, Repr

/-- Value of one close call: the mutated socket, the emitted FIN|ACK segment
and the outcome. -/
structure CloseResult where
  socket : Socket
  seg : OutSeg
  outcome : CloseOutcome
  deriving DecidableEq, Repr

/-- Embedding of close (tcp.rs 237-272): the FIN|ACK carrying sequence
send.next and acknowledgement recv.next is sent and send.next incremented
before the status dispatch, in every state. -/
def close (s : Socket) : CloseResult :=
  let seg : OutSeg := { seq := s.send_param.next, ack := s.recv_param.next,
                        flag := FIN ||| ACK, payload := [] }
  let s1 := { s with
                send_param := { s.send_param with
                                  next := (s.send_param.next + 1) % u32Mod } }
  match s1.status with
  | TcpStatus.Established =>
    { socket := { s1 with status := TcpStatus.FinWait1 }, seg := seg,
      outcome := CloseOutcome.waitThenRemove }
  | TcpStatus.CloseWait =>
    { socket := { s1 with status := TcpStatus.LastAck }, seg := seg,
      outcome := CloseOutcome.waitThenRemove }
  | TcpStatus.Listen =>
    { socket := s1, seg := seg, outcome := CloseOutcome.removeNow }
  | _ => { socket := s1, seg := seg, outcome := CloseOutcome.silent }

/-- Value of one timer scan over a connection's retransmission queue: the
remaining queue, the updated send window, the events published and the
packets put back on the wire, in order. -/
structure TimerResult where
  queue : List RetransEntry
  window : Nat
  events : List TCPEventKind
  resent : List TCPPacket
  deriving DecidableEq, Repr

/-- Embedding of one connection's scan by the timer thread (tcp.rs 672-724).
now and latest_transmission_time are in seconds, as the source measures the
elapsed time against a timeout in seconds. An entry acked (sequence below
unacked_seq) is removed with its payload length credited to the window and
Acked published (plus ConnectionClosed for a FIN in LAST-ACK) and the scan
continues; a head younger than the timeout stops the scan; an expired entry
under the attempt cap is retransmitted as-is, restamped, moved to the tail
and the scan stops; an expired entry at the cap is dropped (publishing
ConnectionClosed for a FIN in LAST-ACK / FIN-WAIT-1 / FIN-WAIT-2) and the
scan continues. -/
def timerScan (now : Nat) (status : TcpStatus) (unacked_seq : Nat) :
    Nat → List RetransEntry → TimerResult
  | window, [] => { queue := [], window := window, events := [], resent := [] }
  | window, item :: rest =>
    if item.packet.seq < unacked_seq then
      let evs := TCPEventKind.Acked ::
        (if 0 < item.packet.flag &&& FIN ∧ status = TcpStatus.LastAck then
          [TCPEventKind.ConnectionClosed]
        else [])
      let r := timerScan now status unacked_seq
        ((window + item.packet.payload.length) % u16Mod) rest
      { r with events := evs ++ r.events }
    else if now - item.latest_transmission_time < RETRANSMITTION_TIMEOUT then
      { queue := item :: rest, window := window, events := [], resent := [] }
    else if item.transmission_count < MAX_TRANSMITTION then
      { queue := rest ++ [{ item with
                              transmission_count := item.transmission_count + 1,
                              latest_transmission_time := now }],
        window := window, events := [], resent := [item.packet] }
    else
      let evs := if 0 < item.packet.flag &&& FIN ∧
          (status = TcpStatus.LastAck ∨ status = TcpStatus.FinWait1 ∨
            status = TcpStatus.FinWait2) then
          [TCPEventKind.ConnectionClosed]
        else []
      let r := timerScan now status unacked_seq window rest
      { r with events := evs ++ r.events }

/-- Test-fixture constructor used by the concrete theorems: a socket with the
given status, send parameters (unacked_seq, next, window), receive
parameters (next, tail, window), receive buffer, retransmission queue and
parent listener; both initial_seq fields are zero. -/
def mkSocket (st : TcpStatus) (sUnacked sNext sWin rNext rTail rWin : Nat)
    (buf : List Nat) (q : List RetransEntry) (lst : Option Nat) : Socket :=
  { status := st,
    send_param := { initial_seq := 0, unacked_seq := sUnacked, next := sNext,
                    window := sWin },
    recv_param := { initial_seq := 0, next := rNext, tail := rTail,
                    window := rWin },
    recv_buffer := buf, retransmission_queue := q, listening_socket := lst }

/-- Number of Acked events in an event list. -/
def countAcked (evs : List TCPEventKind) : Nat :=
  (evs.filter (fun e => e = TCPEventKind.Acked)).length

theorem countAcked_append (l1 l2 : List TCPEventKind) :
    countAcked (l1 ++ l2) = countAcked l1 + countAcked l2 := by
  simp [countAcked, List.filter_append]

theorem countAcked_replicate (n : Nat) :
    countAcked (List.replicate n TCPEventKind.Acked) = n := by
  induction n with
  | zero => rfl
  | succ k ih => simp [countAcked, List.replicate_succ, List.filter_cons]

theorem countAcked_single_other (e : TCPEventKind) (h : e ≠ TCPEventKind.Acked) :
    countAcked [e] = 0 := by
  simp [countAcked, List.filter_cons, h]

/-- The pruning loop leaves exactly the entries from the first one whose
sequence is at or above the cumulative ACK. -/
theorem delete_acked_loop_queue (a : Nat) (q : List RetransEntry) :
    ∀ w, (delete_acked_loop a q w).1
      = q.dropWhile (fun e => e.packet.seq < a) := by
  induction q with
  | nil => intro w; simp [delete_acked_loop]
  | cons item rest ih =>
    intro w
    by_cases h : item.packet.seq < a
    · simp [delete_acked_loop, h, List.dropWhile_cons, ih]
    · simp [delete_acked_loop, h, List.dropWhile_cons]

/-- The pruning loop publishes one Acked per removed entry. -/
theorem delete_acked_loop_count (a : Nat) (q : List RetransEntry) :
    ∀ w, (delete_acked_loop a q w).2.2
      = (q.takeWhile (fun e => e.packet.seq < a)).length := by
  induction q with
  | nil => intro w; simp [delete_acked_loop]
  | cons item rest ih =>
    intro w
    by_cases h : item.packet.seq < a
    · simp [delete_acked_loop, h, List.takeWhile_cons, ih]
    · simp [delete_acked_loop, h, List.takeWhile_cons]

/-- Reassembly never touches the send-side state, the retransmission queue,
the status or the listener field, and publishes exactly one DataArrived. -/
theorem process_payload_frame (s : Socket) (p : TCPPacket) (r : HandlerOut)
    (h : process_payload s p = some r) :
    r.socket.send_param = s.send_param ∧
    r.socket.retransmission_queue = s.retransmission_queue ∧
    r.socket.status = s.status ∧
    r.socket.listening_socket = s.listening_socket ∧
    r.events = [TCPEventKind.DataArrived] := by
  unfold process_payload at h
  by_cases h1 : s.recv_buffer.length < s.recv_param.window
  · rw [if_pos h1] at h; exact Option.noConfusion h
  rw [if_neg h1] at h
  by_cases h2 : p.seq < s.recv_param.next
  · rw [if_pos h2] at h; exact Option.noConfusion h
  rw [if_neg h2] at h
  by_cases h3 : s.recv_buffer.length < payload_offset s p
  · rw [if_pos h3] at h; exact Option.noConfusion h
  rw [if_neg h3] at h
  by_cases h4 : p.seq = s.recv_param.next
  · rw [if_pos h4] at h
    by_cases h5 : s.recv_param.window < (payload_new_tail s p - p.seq) % u16Mod
    · rw [if_pos h5] at h; exact Option.noConfusion h
    · rw [if_neg h5] at h
      simp only [Option.some.injEq] at h
      subst h
      exact ⟨rfl, rfl, rfl, rfl, rfl⟩
  · rw [if_neg h4] at h
    simp only [Option.some.injEq] at h
    subst h
    exact ⟨rfl, rfl, rfl, rfl, rfl⟩

/-- The post-accounting tail of established_handler never touches the
send parameters or the retransmission queue, and republishes exactly the
Acked events handed to it. -/
theorem est_after_ack_frame (s : Socket) (p : TCPPacket) (n : Nat)
    (r : HandlerOut) (h : est_after_ack s p n = some r) :
    r.socket.send_param = s.send_param ∧
    r.socket.retransmission_queue = s.retransmission_queue ∧
    countAcked r.events = n := by
  unfold est_after_ack at h
  by_cases hflag : p.flag &&& ACK = 0
  · rw [if_pos hflag] at h
    simp only [Option.some.injEq] at h
    subst h
    exact ⟨rfl, rfl, countAcked_replicate n⟩
  · rw [if_neg hflag] at h
    cases hpp : (if p.payload ≠ [] then process_payload s p
        else some { socket := s, segs := [], events := [] }) with
    | none => rw [hpp, Option.none_bind] at h; exact Option.noConfusion h
    | some r0 =>
      simp only [hpp, Option.some_bind] at h
      have hr0 : r0.socket.send_param = s.send_param ∧
          r0.socket.retransmission_queue = s.retransmission_queue ∧
          countAcked r0.events = 0 := by
        by_cases hpe : p.payload ≠ []
        · rw [if_pos hpe] at hpp
          obtain ⟨a, b, _, _, e⟩ := process_payload_frame s p r0 hpp
          exact ⟨a, b, by rw [e]; rfl⟩
        · rw [if_neg hpe] at hpp
          simp only [Option.some.injEq] at hpp
          subst hpp
          exact ⟨rfl, rfl, rfl⟩
      have hD : countAcked [TCPEventKind.DataArrived] = 0 := rfl
      by_cases hfin : 0 < p.flag &&& FIN
      · rw [if_pos hfin] at h
        simp only [Option.some.injEq] at h
        subst h
        refine ⟨hr0.1, hr0.2.1, ?_⟩
        rw [countAcked_append, countAcked_append, countAcked_replicate,
          hr0.2.2, hD]
        omega
      · rw [if_neg hfin] at h
        simp only [Option.some.injEq] at h
        subst h
        refine ⟨hr0.1, hr0.2.1, ?_⟩
        rw [countAcked_append, countAcked_replicate, hr0.2.2]
        omega

/-- The post-accounting tail of finwait_handler never touches the send
parameters or the retransmission queue, and republishes exactly the Acked
events handed to it. -/
theorem fw_after_ack_frame (s : Socket) (p : TCPPacket) (n : Nat)
    (r : HandlerOut) (h : fw_after_ack s p n = some r) :
    r.socket.send_param = s.send_param ∧
    r.socket.retransmission_queue = s.retransmission_queue ∧
    countAcked r.events = n := by
  unfold fw_after_ack at h
  by_cases hflag : p.flag &&& ACK = 0
  · rw [if_pos hflag] at h
    simp only [Option.some.injEq] at h
    subst h
    exact ⟨rfl, rfl, countAcked_replicate n⟩
  · rw [if_neg hflag] at h
    cases hpp : (if p.payload ≠ [] then process_payload s p
        else some { socket := s, segs := [], events := [] }) with
    | none => rw [hpp, Option.none_bind] at h; exact Option.noConfusion h
    | some r0 =>
      simp only [hpp, Option.some_bind] at h
      have hr0 : r0.socket.send_param = s.send_param ∧
          r0.socket.retransmission_queue = s.retransmission_queue ∧
          countAcked r0.events = 0 := by
        by_cases hpe : p.payload ≠ []
        · rw [if_pos hpe] at hpp
          obtain ⟨a, b, _, _, e⟩ := process_payload_frame s p r0 hpp
          exact ⟨a, b, by rw [e]; rfl⟩
        · rw [if_neg hpe] at hpp
          simp only [Option.some.injEq] at hpp
          subst hpp
          exact ⟨rfl, rfl, rfl⟩
      have hC : countAcked [TCPEventKind.ConnectionClosed] = 0 := rfl
      have hs2 : ∀ c : Prop, ∀ hc : Decidable c,
          (@ite _ c hc { r0.socket with status := TcpStatus.FinWait2 }
            r0.socket).send_param = s.send_param ∧
          (@ite _ c hc { r0.socket with status := TcpStatus.FinWait2 }
            r0.socket).retransmission_queue = s.retransmission_queue := by
        intro c hc
        cases hc with
        | isTrue hcc => simpa using ⟨hr0.1, hr0.2.1⟩
        | isFalse hcc => simpa using ⟨hr0.1, hr0.2.1⟩
      by_cases hfin : 0 < p.flag &&& FIN
      · rw [if_pos hfin] at h
        simp only [Option.some.injEq] at h
        subst h
        refine ⟨(hs2 _ _).1, (hs2 _ _).2, ?_⟩
        rw [countAcked_append, countAcked_append, countAcked_replicate,
          hr0.2.2, hC]
        omega
      · rw [if_neg hfin] at h
        simp only [Option.some.injEq] at h
        subst h
        refine ⟨(hs2 _ _).1, (hs2 _ _).2, ?_⟩
        rw [countAcked_append, countAcked_replicate, hr0.2.2]
        omega

/-- Characterisation of delete_acked_segment: unacked_seq and next are kept,
the queue loses exactly its maximal prefix of entries below unacked_seq, the
Acked count is the length of that prefix, and the receive side is kept. -/
theorem delete_acked_segment_spec (s : Socket) :
    (delete_acked_segment s).1.send_param.unacked_seq
        = s.send_param.unacked_seq ∧
    (delete_acked_segment s).1.send_param.next = s.send_param.next ∧
    (delete_acked_segment s).1.retransmission_queue
        = s.retransmission_queue.dropWhile
            (fun e => e.packet.seq < s.send_param.unacked_seq) ∧
    (delete_acked_segment s).2
        = (s.retransmission_queue.takeWhile
            (fun e => e.packet.seq < s.send_param.unacked_seq)).length ∧
    (delete_acked_segment s).1.status = s.status ∧
    (delete_acked_segment s).1.recv_param = s.recv_param ∧
    (delete_acked_segment s).1.recv_buffer = s.recv_buffer :=
  ⟨rfl, rfl, delete_acked_loop_queue _ _ _, delete_acked_loop_count _ _ _,
    rfl, rfl, rfl⟩

/-- A successful exit of the zero-window wait loop of send returns the
send size recomputed from the window it saw, and that size is nonzero. -/
theorem awaitWindow_spec (remaining : Nat) (env : List Nat) :
    ∀ window w sz env2,
      awaitWindow remaining env window = some (w, sz, env2) →
      sz = computeSendSize w remaining ∧ 0 < sz := by
  induction env with
  | nil =>
    intro window w sz env2 h
    unfold awaitWindow at h
    by_cases h0 : computeSendSize window remaining = 0
    · rw [if_pos h0] at h; exact Option.noConfusion h
    · rw [if_neg h0] at h
      simp only [Option.some.injEq, Prod.mk.injEq] at h
      obtain ⟨hw, hsz, _⟩ := h
      subst hw; subst hsz
      exact ⟨rfl, Nat.pos_of_ne_zero h0⟩
  | cons a env ih =>
    intro window w sz env2 h
    unfold awaitWindow at h
    by_cases h0 : computeSendSize window remaining = 0
    · rw [if_pos h0] at h
      exact ih a w sz env2 h
    · rw [if_neg h0] at h
      simp only [Option.some.injEq, Prod.mk.injEq] at h
      obtain ⟨hw, hsz, _⟩ := h
      subst hw; subst hsz
      exact ⟨rfl, Nat.pos_of_ne_zero h0⟩

/-- The computed send size never exceeds the remaining byte count. -/
theorem computeSendSize_le_remaining (window remaining : Nat) :
    computeSendSize window remaining ≤ remaining := by
  unfold computeSendSize
  exact le_trans (Nat.min_le_right _ _) (Nat.min_le_right _ _)

/-- When the sequence numbers do not wrap, a completed send loop leaves
send.next advanced by exactly the number of bytes it transmitted. -/
theorem sendLoop_next_eq (fuel : Nat) :
    ∀ env window next recvNext buffer cursor r,
      sendLoop fuel env window next recvNext buffer cursor = some r →
      next + (buffer.length - cursor) < u32Mod →
      r.next = next + (buffer.length - cursor) := by
  induction fuel with
  | zero =>
    intro env window next recvNext buffer cursor r h _
    exact Option.noConfusion h
  | succ n ih =>
    intro env window next recvNext buffer cursor r h hlt
    unfold sendLoop at h
    by_cases hcl : cursor < buffer.length
    · rw [if_pos hcl] at h
      cases haw : awaitWindow (buffer.length - cursor) env window with
      | none => rw [haw] at h; exact Option.noConfusion h
      | some t =>
        obtain ⟨w, sz, env2⟩ := t
        rw [haw] at h
        dsimp only at h
        cases hrec : sendLoop n env2 (w - sz) ((next + sz) % u32Mod) recvNext
            buffer (cursor + sz) with
        | none => rw [hrec] at h; exact Option.noConfusion h
        | some r2 =>
          rw [hrec] at h
          dsimp only at h
          simp only [Option.some.injEq] at h
          subst h
          obtain ⟨hsz, hszpos⟩ := awaitWindow_spec _ _ _ _ _ _ haw
          have hszle : sz ≤ buffer.length - cursor := by
            rw [hsz]; exact computeSendSize_le_remaining _ _
          have hmod : (next + sz) % u32Mod = next + sz :=
            Nat.mod_eq_of_lt (by omega)
          rw [hmod] at hrec
          have hrn := ih env2 (w - sz) (next + sz) recvNext buffer
            (cursor + sz) r2 hrec (by omega)
          show r2.next = next + (buffer.length - cursor)
          omega
    · rw [if_neg hcl] at h
      simp only [Option.some.injEq] at h
      subst h
      show next = next + (buffer.length - cursor)
      omega

/-- A completed send loop transmits exactly the bytes of the buffer from the
cursor on, in order, and every segment carries the ACK flag and the
connection's recv.next as acknowledgement. -/
theorem sendLoop_payloads (fuel : Nat) :
    ∀ env window next recvNext buffer cursor r,
      sendLoop fuel env window next recvNext buffer cursor = some r →
      (r.segs.map OutSeg.payload).flatten = buffer.drop cursor ∧
      ∀ g ∈ r.segs, g.flag = ACK ∧ g.ack = recvNext := by
  induction fuel with
  | zero =>
    intro env window next recvNext buffer cursor r h
    exact Option.noConfusion h
  | succ n ih =>
    intro env window next recvNext buffer cursor r h
    unfold sendLoop at h
    by_cases hcl : cursor < buffer.length
    · rw [if_pos hcl] at h
      cases haw : awaitWindow (buffer.length - cursor) env window with
      | none => rw [haw] at h; exact Option.noConfusion h
      | some t =>
        obtain ⟨w, sz, env2⟩ := t
        rw [haw] at h
        dsimp only at h
        cases hrec : sendLoop n env2 (w - sz) ((next + sz) % u32Mod) recvNext
            buffer (cursor + sz) with
        | none => rw [hrec] at h; exact Option.noConfusion h
        | some r2 =>
          rw [hrec] at h
          dsimp only at h
          simp only [Option.some.injEq] at h
          subst h
          obtain ⟨hflat, hflags⟩ := ih env2 (w - sz) ((next + sz) % u32Mod)
            recvNext buffer (cursor + sz) r2 hrec
          constructor
          · show ((buffer.drop cursor).take sz)
              ++ (r2.segs.map OutSeg.payload).flatten = buffer.drop cursor
            rw [hflat]
            have hdd : buffer.drop (cursor + sz) = (buffer.drop cursor).drop sz := by
              rw [List.drop_drop, Nat.add_comm]
            rw [hdd, List.take_append_drop]
          · intro g hg
            rw [List.mem_cons] at hg
            rcases hg with hg | hg
            · subst hg; exact ⟨rfl, rfl⟩
            · exact hflags g hg
    · rw [if_neg hcl] at h
      simp only [Option.some.injEq] at h
      subst h
      refine ⟨?_, by intro g hg; exact absurd hg (List.not_mem_nil g)⟩
      show ([] : List Nat) = buffer.drop cursor
      rw [List.drop_eq_nil_iff.mpr (by omega)]

/-- One transmitting iteration of the send loop, as a rewriting equation:
when the cursor is inside the buffer and the wait loop hands back a window
and a nonzero size, the loop emits one ACK segment and recurses with the
window shrunk and send.next advanced by the size. -/
theorem sendLoop_step (fuel : Nat) (env : List Nat) (window next recvNext : Nat)
    (buffer : List Nat) (cursor : Nat) (w2 sz : Nat) (env2 : List Nat)
    (hc : cursor < buffer.length)
    (haw : awaitWindow (buffer.length - cursor) env window
      = some (w2, sz, env2)) :
    sendLoop (fuel + 1) env window next recvNext buffer cursor
      = (sendLoop fuel env2 (w2 - sz) ((next + sz) % u32Mod) recvNext buffer
          (cursor + sz)).map (fun r =>
            { r with segs := { seq := next, ack := recvNext, flag := ACK, payload := (buffer.drop cursor).take sz } :: r.segs }) := by
  conv_lhs => unfold sendLoop
  rw [if_pos hc, haw]
  dsimp only
  cases hrec : sendLoop fuel env2 (w2 - sz) ((next + sz) % u32Mod) recvNext
      buffer (cursor + sz) with
  | none => rfl
  | some r => rfl

/-- The terminal iteration of the send loop: once the cursor has reached the
end of the buffer the loop returns the final send parameters. -/
theorem sendLoop_done (fuel : Nat) (env : List Nat)
    (window next recvNext : Nat) (buffer : List Nat) (cursor : Nat)
    (hc : ¬ cursor < buffer.length) :
    sendLoop (fuel + 1) env window next recvNext buffer cursor
      = some { segs := [], next := next, window := window } := by
  unfold sendLoop
  rw [if_neg hc]

/-- When the computed send size is already nonzero the wait loop returns
immediately with the current window. -/
theorem awaitWindow_now (remaining : Nat) (env : List Nat) (window : Nat)
    (h : computeSendSize window remaining ≠ 0) :
    awaitWindow remaining env window
      = some (window, computeSendSize window remaining, env) := by
  unfold awaitWindow
  rw [if_neg h]

/-- C4: the claim states that process_payload silently drops a payload whose
sequence is below recv.next and a payload whose write offset exceeds the
receive buffer length, leaving the buffer, recv.next, recv.tail and
recv.window unchanged, with no underflow or out-of-bounds index in the
offset and copy-size computations. The code has no such guards: on the
first input the u32 subtraction seq - recv.next (tcp.rs 739) underflows,
and on the second the offset exceeds the buffer so the usize subtraction
recv_buffer.len() - offset (tcp.rs 741) underflows and the slice index
(tcp.rs 742) is out of bounds. The theorem evaluates the embedded code at
both failing inputs: the result is the none that models the abort, not a
successful drop. -/
theorem C4_reassembly_underflow :
    process_payload
        (mkSocket TcpStatus.Established 1 1 10 10 10 10
          (List.replicate 10 0) [] none)
        { seq := 5, ack := 1, flag := ACK, payload := [42] } = none ∧
    process_payload
        (mkSocket TcpStatus.Established 1 1 10 5 5 10
          (List.replicate 10 0) [] none)
        { seq := 25, ack := 1, flag := ACK, payload := [42] } = none := by
  exact ⟨rfl, rfl⟩

/-- C8: close emits a FIN|ACK carrying sequence send.next and
acknowledgement recv.next, then increments send.next by one (a u32
increment); ESTABLISHED moves to FIN-WAIT-1 and CLOSE-WAIT to LAST-ACK,
both then waiting for ConnectionClosed and removing the registry entry
(outcome waitThenRemove); a LISTEN socket is removed immediately; every
other state returns silently. -/
theorem C8_close (s : Socket) :
    (close s).seg = { seq := s.send_param.next, ack := s.recv_param.next, flag := FIN ||| ACK, payload := [] } ∧
    (close s).socket.send_param.next = (s.send_param.next + 1) % u32Mod ∧
    (s.send_param.next + 1 < u32Mod →
      (close s).socket.send_param.next = s.send_param.next + 1) ∧
    (s.status = TcpStatus.Established →
      (close s).socket.status = TcpStatus.FinWait1 ∧
      (close s).outcome = CloseOutcome.waitThenRemove) ∧
    (s.status = TcpStatus.CloseWait →
      (close s).socket.status = TcpStatus.LastAck ∧
      (close s).outcome = CloseOutcome.waitThenRemove) ∧
    (s.status = TcpStatus.Listen →
      (close s).socket.status = TcpStatus.Listen ∧
      (close s).outcome = CloseOutcome.removeNow) ∧
    (s.status ≠ TcpStatus.Established → s.status ≠ TcpStatus.CloseWait →
      s.status ≠ TcpStatus.Listen →
      (close s).socket.status = s.status ∧
      (close s).outcome = CloseOutcome.silent) := by
  obtain ⟨st, sp, rp, buf, q, lst⟩ := s
  cases st <;>
    exact ⟨rfl, rfl, fun h => Nat.mod_eq_of_lt h, by simp [close],
      by simp [close], by simp [close], by simp [close]⟩

/-- C8 witness: the theorem applied to a concrete ESTABLISHED socket,
discharging the no-wraparound hypothesis and the status hypothesis. -/
theorem C8_close_witness :
    (close (mkSocket TcpStatus.Established 5 10 100 20 20 10 [] []
      none)).socket.send_param.next = 11 ∧
    (close (mkSocket TcpStatus.Established 5 10 100 20 20 10 [] []
      none)).socket.status = TcpStatus.FinWait1 :=
  ⟨(C8_close (mkSocket TcpStatus.Established 5 10 100 20 20 10 [] []
      none)).2.2.1 (by decide),
   ((C8_close (mkSocket TcpStatus.Established 5 10 100 20 20 10 [] []
      none)).2.2.2.1 rfl).1⟩

/-- C1 counterexample: the claim bundles into ACK acceptance — for the
SYN-RECEIVED handler as well — that send.unacked_seq is set to the
packet's ack AND the retransmission queue is pruned with one Acked event
per removed entry, iff unacked_seq < ack ≤ send.next. On this concrete
SYN-RECEIVED socket the ack 8 lies in (5, 10], and the handler does set
unacked_seq to 8, but the queued entry with sequence 5 < 8 is not removed
and no Acked event is published: synrcvd_handler performs no pruning. -/
theorem C1_counterexample :
    let s := mkSocket TcpStatus.SynRcvd 5 10 100 0 0 10 (List.replicate 10 0)
      [{ packet := { seq := 5, ack := 0, flag := SYN, payload := [7] },
         latest_transmission_time := 0, transmission_count := 1 }] (some 0)
    let p : TCPPacket := { seq := 33, ack := 8, flag := ACK, payload := [] }
    s.send_param.unacked_seq < p.ack ∧ p.ack ≤ s.send_param.next ∧
    (synrcvd_handler s p).socket.send_param.unacked_seq = p.ack ∧
    (synrcvd_handler s p).socket.retransmission_queue =
      s.retransmission_queue ∧
    s.retransmission_queue ≠ [] ∧
    TCPEventKind.Acked ∉ (synrcvd_handler s p).events := by
  decide

/-- C2 counterexample: the claim states that send.unacked_seq ≤ send.next
holds after every handler step, including the CLOSE-WAIT/LAST-ACK handler.
close_handler records the packet's ack unconditionally (tcp.rs 610), so a
packet whose ack 100 exceeds send.next 10 drives unacked_seq to 100 > 10,
violating the invariant even though it held before the step. -/
theorem C2_counterexample :
    let s := mkSocket TcpStatus.CloseWait 5 10 100 0 0 10 [] [] none
    let p : TCPPacket := { seq := 0, ack := 100, flag := ACK, payload := [] }
    s.send_param.unacked_seq ≤ s.send_param.next ∧
    ¬ ((close_handler s p).send_param.unacked_seq ≤
        (close_handler s p).send_param.next) := by
  decide

/-- C9 counterexample: the claim states that in ESTABLISHED a segment
without the ACK flag is dropped leaving the connection state — including
send.unacked_seq and the retransmission queue — unchanged. The handler
performs the ACK accounting before the flag check (tcp.rs 475-489): this
flagless packet with ack field 7 in (5, 10] moves unacked_seq from 5 to 7,
empties the one-entry retransmission queue and publishes an Acked event. -/
theorem C9_counterexample :
    let s := mkSocket TcpStatus.Established 5 10 100 0 0 10
      (List.replicate 10 0)
      [{ packet := { seq := 5, ack := 0, flag := ACK, payload := [7] },
         latest_transmission_time := 0, transmission_count := 1 }] none
    let p : TCPPacket := { seq := 33, ack := 7, flag := 0, payload := [] }
    p.flag &&& ACK = 0 ∧
    s.send_param.unacked_seq = 5 ∧ s.retransmission_queue.length = 1 ∧
    (established_handler s p).map (fun r =>
        (r.socket.send_param.unacked_seq,
         r.socket.retransmission_queue.length,
         countAcked r.events))
      = some (7, 0, 1) := by
  decide

/-- C1 amended: in the ESTABLISHED and FIN-WAIT-1/2 handlers an arriving ACK
is accepted — send.unacked_seq is set to the packet's ack and the
retransmission queue pruned, publishing one Acked event per removed entry —
iff unacked_seq < ack ≤ send.next, and an ack strictly beyond send.next
drops the segment. In the SYN-RECEIVED handler the acceptance condition is
the non-strict unacked_seq ≤ ack ≤ send.next together with the ACK flag,
acceptance records unacked_seq ← ack but never prunes the retransmission
queue and never publishes Acked, and a rejected segment leaves the socket
unchanged. -/
theorem C1_amended (s : Socket) (p : TCPPacket) :
    ((s.send_param.unacked_seq < p.ack ∧ p.ack ≤ s.send_param.next) →
      ∀ r, established_handler s p = some r →
        r.socket.send_param.unacked_seq = p.ack ∧
        r.socket.retransmission_queue
          = s.retransmission_queue.dropWhile (fun e => e.packet.seq < p.ack) ∧
        countAcked r.events
          = (s.retransmission_queue.takeWhile
              (fun e => e.packet.seq < p.ack)).length) ∧
    (¬ (s.send_param.unacked_seq < p.ack ∧ p.ack ≤ s.send_param.next) →
      ∀ r, established_handler s p = some r →
        r.socket.send_param.unacked_seq = s.send_param.unacked_seq ∧
        r.socket.retransmission_queue = s.retransmission_queue ∧
        countAcked r.events = 0) ∧
    (s.send_param.next < p.ack →
      established_handler s p
        = some { socket := s, segs := [], events := [] }) ∧
    ((s.send_param.unacked_seq < p.ack ∧ p.ack ≤ s.send_param.next) →
      ∀ r, finwait_handler s p = some r →
        r.socket.send_param.unacked_seq = p.ack ∧
        r.socket.retransmission_queue
          = s.retransmission_queue.dropWhile (fun e => e.packet.seq < p.ack) ∧
        countAcked r.events
          = (s.retransmission_queue.takeWhile
              (fun e => e.packet.seq < p.ack)).length) ∧
    (¬ (s.send_param.unacked_seq < p.ack ∧ p.ack ≤ s.send_param.next) →
      ∀ r, finwait_handler s p = some r →
        r.socket.send_param.unacked_seq = s.send_param.unacked_seq ∧
        r.socket.retransmission_queue = s.retransmission_queue ∧
        countAcked r.events = 0) ∧
    (s.send_param.next < p.ack →
      finwait_handler s p
        = some { socket := s, segs := [], events := [] }) ∧
    ((0 < p.flag &&& ACK ∧ s.send_param.unacked_seq ≤ p.ack ∧
        p.ack ≤ s.send_param.next) →
      (synrcvd_handler s p).socket.send_param.unacked_seq = p.ack ∧
      (synrcvd_handler s p).socket.retransmission_queue
        = s.retransmission_queue ∧
      countAcked (synrcvd_handler s p).events = 0) ∧
    (¬ (0 < p.flag &&& ACK ∧ s.send_param.unacked_seq ≤ p.ack ∧
        p.ack ≤ s.send_param.next) →
      synrcvd_handler s p = { socket := s, segs := [], events := [] }) := by
  refine ⟨?_, ?_, ?_, ?_, ?_, ?_, ?_, ?_⟩
  · intro hacc r hr
    unfold established_handler at hr
    rw [if_pos hacc] at hr
    dsimp only at hr
    obtain ⟨h1, h2, h3⟩ := est_after_ack_frame _ p _ r hr
    refine ⟨?_, ?_, ?_⟩
    · rw [h1]; exact (delete_acked_segment_spec _).1
    · rw [h2]; exact (delete_acked_segment_spec _).2.2.1
    · rw [h3]; exact (delete_acked_segment_spec _).2.2.2.1
  · intro hrej r hr
    unfold established_handler at hr
    rw [if_neg hrej] at hr
    by_cases hd : s.send_param.next < p.ack
    · rw [if_pos hd] at hr
      simp only [Option.some.injEq] at hr
      subst hr
      exact ⟨rfl, rfl, rfl⟩
    · rw [if_neg hd] at hr
      obtain ⟨h1, h2, h3⟩ := est_after_ack_frame s p 0 r hr
      exact ⟨by rw [h1], h2, h3⟩
  · intro hd
    unfold established_handler
    rw [if_neg (by omega :
      ¬ (s.send_param.unacked_seq < p.ack ∧ p.ack ≤ s.send_param.next))]
    rw [if_pos hd]
  · intro hacc r hr
    unfold finwait_handler at hr
    rw [if_pos hacc] at hr
    dsimp only at hr
    obtain ⟨h1, h2, h3⟩ := fw_after_ack_frame _ p _ r hr
    refine ⟨?_, ?_, ?_⟩
    · rw [h1]; exact (delete_acked_segment_spec _).1
    · rw [h2]; exact (delete_acked_segment_spec _).2.2.1
    · rw [h3]; exact (delete_acked_segment_spec _).2.2.2.1
  · intro hrej r hr
    unfold finwait_handler at hr
    rw [if_neg hrej] at hr
    by_cases hd : s.send_param.next < p.ack
    · rw [if_pos hd] at hr
      simp only [Option.some.injEq] at hr
      subst hr
      exact ⟨rfl, rfl, rfl⟩
    · rw [if_neg hd] at hr
      obtain ⟨h1, h2, h3⟩ := fw_after_ack_frame s p 0 r hr
      exact ⟨by rw [h1], h2, h3⟩
  · intro hd
    unfold finwait_handler
    rw [if_neg (by omega :
      ¬ (s.send_param.unacked_seq < p.ack ∧ p.ack ≤ s.send_param.next))]
    rw [if_pos hd]
  · intro hacc
    unfold synrcvd_handler
    rw [if_pos hacc]
    refine ⟨rfl, rfl, ?_⟩
    cases hl : s.listening_socket <;> simp [hl, countAcked]
  · intro hrej
    unfold synrcvd_handler
    rw [if_neg hrej]

/-- C1 witness: the amended theorem applied to a concrete SYN-RECEIVED
socket whose queued entry would be pruned under the claim's reading, and to
a concrete ESTABLISHED socket receiving an ack beyond send.next. -/
theorem C1_amended_witness :
    (synrcvd_handler
        (mkSocket TcpStatus.SynRcvd 5 10 100 0 0 10 (List.replicate 10 0)
          [{ packet := { seq := 5, ack := 0, flag := SYN, payload := [7] },
             latest_transmission_time := 0, transmission_count := 1 }]
          (some 0))
        { seq := 33, ack := 8, flag := ACK,
          payload := [] }).socket.send_param.unacked_seq = 8 ∧
    established_handler
        (mkSocket TcpStatus.Established 5 10 100 0 0 10 (List.replicate 10 0)
          [] none)
        { seq := 33, ack := 11, flag := ACK, payload := [] }
      = some { socket := mkSocket TcpStatus.Established 5 10 100 0 0 10
                 (List.replicate 10 0) [] none,
               segs := [], events := [] } :=
  ⟨((C1_amended _ _).2.2.2.2.2.2.1 (by decide)).1,
   (C1_amended _ _).2.2.1 (by decide)⟩

/-- C2 amended: send.unacked_seq ≤ send.next is preserved by the
SYN-RECEIVED, ESTABLISHED and FIN-WAIT handlers, by close when send.next
does not wrap, and by send (which only advances send.next and leaves
unacked_seq untouched; the timer scan touches neither field). The
CLOSE-WAIT/LAST-ACK handler records the packet's ack unconditionally, so it
preserves the invariant only when the packet's ack is at most send.next. -/
theorem C2_amended (s : Socket) (p : TCPPacket) :
    (s.send_param.unacked_seq ≤ s.send_param.next →
      p.ack ≤ s.send_param.next →
      (close_handler s p).send_param.unacked_seq
        ≤ (close_handler s p).send_param.next) ∧
    (s.send_param.unacked_seq ≤ s.send_param.next →
      (synrcvd_handler s p).socket.send_param.unacked_seq
        ≤ (synrcvd_handler s p).socket.send_param.next) ∧
    (s.send_param.unacked_seq ≤ s.send_param.next →
      ∀ r, established_handler s p = some r →
        r.socket.send_param.unacked_seq ≤ r.socket.send_param.next) ∧
    (s.send_param.unacked_seq ≤ s.send_param.next →
      ∀ r, finwait_handler s p = some r →
        r.socket.send_param.unacked_seq ≤ r.socket.send_param.next) ∧
    (s.send_param.unacked_seq ≤ s.send_param.next →
      s.send_param.next + 1 < u32Mod →
      (close s).socket.send_param.unacked_seq
        ≤ (close s).socket.send_param.next) ∧
    (∀ env window recvNext buffer r,
      send env window s.send_param.next recvNext buffer = some r →
      s.send_param.next + buffer.length < u32Mod →
      s.send_param.unacked_seq ≤ s.send_param.next →
      s.send_param.unacked_seq ≤ r.next) := by
  refine ⟨?_, ?_, ?_, ?_, ?_, ?_⟩
  · intro _ h2
    exact h2
  · intro h
    by_cases hc : 0 < p.flag &&& ACK ∧ s.send_param.unacked_seq ≤ p.ack ∧
      p.ack ≤ s.send_param.next
    · unfold synrcvd_handler
      rw [if_pos hc]
      exact hc.2.2
    · unfold synrcvd_handler
      rw [if_neg hc]
      exact h
  · intro h r hr
    unfold established_handler at hr
    by_cases hacc : s.send_param.unacked_seq < p.ack ∧
      p.ack ≤ s.send_param.next
    · rw [if_pos hacc] at hr
      dsimp only at hr
      obtain ⟨h1, _, _⟩ := est_after_ack_frame _ p _ r hr
      rw [h1, (delete_acked_segment_spec _).1, (delete_acked_segment_spec _).2.1]
      exact hacc.2
    · rw [if_neg hacc] at hr
      by_cases hd : s.send_param.next < p.ack
      · rw [if_pos hd] at hr
        simp only [Option.some.injEq] at hr
        subst hr
        exact h
      · rw [if_neg hd] at hr
        obtain ⟨h1, _, _⟩ := est_after_ack_frame s p 0 r hr
        rw [h1]
        exact h
  · intro h r hr
    unfold finwait_handler at hr
    by_cases hacc : s.send_param.unacked_seq < p.ack ∧
      p.ack ≤ s.send_param.next
    · rw [if_pos hacc] at hr
      dsimp only at hr
      obtain ⟨h1, _, _⟩ := fw_after_ack_frame _ p _ r hr
      rw [h1, (delete_acked_segment_spec _).1, (delete_acked_segment_spec _).2.1]
      exact hacc.2
    · rw [if_neg hacc] at hr
      by_cases hd : s.send_param.next < p.ack
      · rw [if_pos hd] at hr
        simp only [Option.some.injEq] at hr
        subst hr
        exact h
      · rw [if_neg hd] at hr
        obtain ⟨h1, _, _⟩ := fw_after_ack_frame s p 0 r hr
        rw [h1]
        exact h
  · intro h hlt
    obtain ⟨st, sp, rp, buf, q, lst⟩ := s
    dsimp only at h hlt
    cases st <;>
      (show sp.unacked_seq ≤ (sp.next + 1) % u32Mod
       rw [Nat.mod_eq_of_lt hlt]
       omega)
  · intro env window recvNext buffer r hsend hlt h
    have hn := sendLoop_next_eq (buffer.length + 1) env window
      s.send_param.next recvNext buffer 0 r hsend (by simpa using hlt)
    omega

/-- C2 witness: the amended theorem applied to a concrete CLOSE-WAIT socket
and an in-range ack, discharging both hypotheses. -/
theorem C2_amended_witness :
    (close_handler (mkSocket TcpStatus.CloseWait 5 10 100 0 0 10 [] [] none)
        { seq := 0, ack := 9, flag := ACK,
          payload := [] }).send_param.unacked_seq
      ≤ (close_handler (mkSocket TcpStatus.CloseWait 5 10 100 0 0 10 [] []
          none)
        { seq := 0, ack := 9, flag := ACK, payload := [] }).send_param.next :=
  (C2_amended _ _).1 (by decide) (by decide)

/-- C9 amended: in ESTABLISHED and FIN-WAIT-1/2 a segment without the ACK
flag is dropped before payload processing, status transitions and FIN
handling — no reply segment is sent and the receive side is untouched — but
the ACK accounting has already run: when the segment's ack field lies in
(unacked_seq, next] the handler has set send.unacked_seq to it and pruned
the retransmission queue, publishing one Acked per removed entry; for any
other ack field value the connection state is fully unchanged. -/
theorem C9_amended (s : Socket) (p : TCPPacket) (hflag : p.flag &&& ACK = 0) :
    ((s.send_param.unacked_seq < p.ack ∧ p.ack ≤ s.send_param.next) →
      established_handler s p = some
        { socket := (delete_acked_segment { s with send_param := { s.send_param with unacked_seq := p.ack } }).1,
          segs := [],
          events := List.replicate
            (delete_acked_segment { s with send_param := { s.send_param with unacked_seq := p.ack } }).2
            TCPEventKind.Acked } ∧
      finwait_handler s p = some
        { socket := (delete_acked_segment { s with send_param := { s.send_param with unacked_seq := p.ack } }).1,
          segs := [],
          events := List.replicate
            (delete_acked_segment { s with send_param := { s.send_param with unacked_seq := p.ack } }).2
            TCPEventKind.Acked }) ∧
    (¬ (s.send_param.unacked_seq < p.ack ∧ p.ack ≤ s.send_param.next) →
      established_handler s p = some { socket := s, segs := [], events := [] } ∧
      finwait_handler s p = some { socket := s, segs := [], events := [] }) := by
  constructor
  · intro hacc
    constructor
    · unfold established_handler
      rw [if_pos hacc]
      dsimp only
      unfold est_after_ack
      rw [if_pos hflag]
    · unfold finwait_handler
      rw [if_pos hacc]
      dsimp only
      unfold fw_after_ack
      rw [if_pos hflag]
  · intro hrej
    constructor
    · unfold established_handler
      rw [if_neg hrej]
      by_cases hd : s.send_param.next < p.ack
      · rw [if_pos hd]
      · rw [if_neg hd]
        unfold est_after_ack
        rw [if_pos hflag]
        rfl
    · unfold finwait_handler
      rw [if_neg hrej]
      by_cases hd : s.send_param.next < p.ack
      · rw [if_pos hd]
      · rw [if_neg hd]
        unfold fw_after_ack
        rw [if_pos hflag]
        rfl

/-- C9 witness: the amended theorem applied to a concrete ESTABLISHED
socket and flagless in-window ack, discharging both hypotheses. -/
theorem C9_amended_witness :
    established_handler
        (mkSocket TcpStatus.Established 5 10 100 0 0 10 (List.replicate 10 0)
          [] none)
        { seq := 33, ack := 7, flag := 0, payload := [] }
      = some
        { socket := (delete_acked_segment { mkSocket TcpStatus.Established 5 10 100 0 0 10 (List.replicate 10 0) [] none with send_param := { (mkSocket TcpStatus.Established 5 10 100 0 0 10 (List.replicate 10 0) [] none).send_param with unacked_seq := 7 } }).1,
          segs := [],
          events := List.replicate
            (delete_acked_segment { mkSocket TcpStatus.Established 5 10 100 0 0 10 (List.replicate 10 0) [] none with send_param := { (mkSocket TcpStatus.Established 5 10 100 0 0 10 (List.replicate 10 0) [] none).send_param with unacked_seq := 7 } }).2
            TCPEventKind.Acked } :=
  ((C9_amended _ _ (by decide)).1 (by decide)).1

/-- C3: for a non-aborting reassembly step with copied length
c = payload_copy_size: recv.tail becomes max(recv.tail, seq + c); when the
segment is in order (seq = recv.next) recv.next advances to the new
recv.tail and recv.window shrinks by exactly (new tail - seq); when it is
out of order (recv.next < seq) the payload is written at the hole's offset
while recv.next and recv.window are unchanged; and the in-order case is the
only path on which recv.next changes. -/
theorem C3_reassembly (s : Socket) (p : TCPPacket)
    (hw : s.recv_param.window ≤ s.recv_buffer.length)
    (hseq : s.recv_param.next ≤ p.seq)
    (hoff : payload_offset s p ≤ s.recv_buffer.length)
    (hwrap : p.seq + p.payload.length < u32Mod)
    (hspan16 : p.seq = s.recv_param.next →
      payload_new_tail s p - p.seq < u16Mod)
    (hspanwin : p.seq = s.recv_param.next →
      payload_new_tail s p - p.seq ≤ s.recv_param.window) :
    ∃ r, process_payload s p = some r ∧
      r.socket.recv_param.tail
        = max s.recv_param.tail (p.seq + payload_copy_size s p) ∧
      r.socket.recv_buffer = payload_new_buffer s p ∧
      (p.seq = s.recv_param.next →
        r.socket.recv_param.next = r.socket.recv_param.tail ∧
        r.socket.recv_param.window
          = s.recv_param.window - (r.socket.recv_param.tail - p.seq)) ∧
      (s.recv_param.next < p.seq →
        r.socket.recv_param.next = s.recv_param.next ∧
        r.socket.recv_param.window = s.recv_param.window) ∧
      (r.socket.recv_param.next ≠ s.recv_param.next →
        p.seq = s.recv_param.next) := by
  have hcle : payload_copy_size s p ≤ p.payload.length := Nat.min_le_left _ _
  have hmod : (p.seq + payload_copy_size s p) % u32Mod
      = p.seq + payload_copy_size s p := Nat.mod_eq_of_lt (by omega)
  have htail : payload_new_tail s p
      = max s.recv_param.tail (p.seq + payload_copy_size s p) := by
    unfold payload_new_tail
    rw [hmod]
  unfold process_payload
  rw [if_neg (Nat.not_lt.mpr hw), if_neg (Nat.not_lt.mpr hseq),
    if_neg (Nat.not_lt.mpr hoff)]
  by_cases hc : p.seq = s.recv_param.next
  · rw [if_pos hc]
    have h16 : (payload_new_tail s p - p.seq) % u16Mod
        = payload_new_tail s p - p.seq := Nat.mod_eq_of_lt (hspan16 hc)
    rw [if_neg (by rw [h16]; exact Nat.not_lt.mpr (hspanwin hc))]
    refine ⟨_, rfl, htail, rfl, fun _ => ⟨rfl, by rw [h16]⟩, ?_, fun _ => hc⟩
    intro hlt
    omega
  · rw [if_neg hc]
    refine ⟨_, rfl, htail, rfl, fun hc2 => absurd hc2 hc, fun _ => ⟨rfl, rfl⟩,
      fun hne => absurd rfl hne⟩

/-- C3 witness: the theorem applied to a concrete in-order segment
(recv.next = 5000, seq = 5000, three payload bytes into an empty ten-byte
buffer), discharging every hypothesis. -/
theorem C3_reassembly_witness :
    ∃ r, process_payload
        (mkSocket TcpStatus.Established 1 1 10 5000 5000 10
          (List.replicate 10 9) [] none)
        { seq := 5000, ack := 1, flag := ACK, payload := [1, 2, 3] }
      = some r ∧
      r.socket.recv_param.tail
        = max 5000 (5000 + payload_copy_size
            (mkSocket TcpStatus.Established 1 1 10 5000 5000 10
              (List.replicate 10 9) [] none)
            { seq := 5000, ack := 1, flag := ACK, payload := [1, 2, 3] }) ∧
      r.socket.recv_buffer = payload_new_buffer
          (mkSocket TcpStatus.Established 1 1 10 5000 5000 10
            (List.replicate 10 9) [] none)
          { seq := 5000, ack := 1, flag := ACK, payload := [1, 2, 3] } ∧
      ((5000 : Nat) = 5000 →
        r.socket.recv_param.next = r.socket.recv_param.tail ∧
        r.socket.recv_param.window
          = 10 - (r.socket.recv_param.tail - 5000)) ∧
      ((5000 : Nat) < 5000 →
        r.socket.recv_param.next = 5000 ∧
        r.socket.recv_param.window = 10) ∧
      (r.socket.recv_param.next ≠ 5000 → (5000 : Nat) = 5000) :=
  C3_reassembly
    (mkSocket TcpStatus.Established 1 1 10 5000 5000 10
      (List.replicate 10 9) [] none)
    { seq := 5000, ack := 1, flag := ACK, payload := [1, 2, 3] }
    (by decide) (by decide) (by decide) (by decide)
    (fun _ => by decide) (fun _ => by decide)

/-- C6: recv computes the available byte count as
recv_buffer.len - recv.window; when it is zero it returns 0 immediately on
CLOSE-WAIT / LAST-ACK / TIME-WAIT (consuming nothing), otherwise it parks on
DataArrived and recomputes on the re-read socket (blocking forever if no
data ever arrives); once nonzero it copies exactly
min(out_buffer.len, available) bytes from the buffer front, shifts the
buffer left by that amount, credits the amount to recv.window and returns
it. -/
theorem C6_recv (s s2 : Socket) (env : List Socket) (outLen : Nat) :
    (s.recv_param.window ≤ s.recv_buffer.length →
      s.recv_param.window < u16Mod →
      recvAvailable s = 0 → isPeerFinStatus s.status = true →
      recv env s outLen = some { count := 0, out := [], socket := s }) ∧
    (s.recv_param.window ≤ s.recv_buffer.length →
      recvAvailable s = 0 → isPeerFinStatus s.status = false →
      recv (s2 :: env) s outLen = recv env s2 outLen) ∧
    (s.recv_param.window ≤ s.recv_buffer.length →
      recvAvailable s = 0 → isPeerFinStatus s.status = false →
      recv [] s outLen = none) ∧
    (s.recv_param.window ≤ s.recv_buffer.length →
      0 < recvAvailable s →
      recv env s outLen = some (recvFinish s outLen) ∧
      (recvFinish s outLen).count = min outLen (recvAvailable s) ∧
      (recvFinish s outLen).out
        = s.recv_buffer.take (min outLen (recvAvailable s)) ∧
      (recvFinish s outLen).socket.recv_buffer
        = s.recv_buffer.drop (min outLen (recvAvailable s))
          ++ s.recv_buffer.drop
              (s.recv_buffer.length - min outLen (recvAvailable s)) ∧
      (s.recv_buffer.length < u16Mod →
        (recvFinish s outLen).socket.recv_param.window
          = s.recv_param.window + min outLen (recvAvailable s))) := by
  refine ⟨?_, ?_, ?_, ?_⟩
  · intro hw hw16 h0 hfin
    have hwait : recvWait env s = some s := by
      unfold recvWait
      rw [if_neg (Nat.not_lt.mpr hw), if_pos h0, hfin]
      simp
    have hfr : recvFinish s outLen = { count := 0, out := [], socket := s } := by
      unfold recvFinish
      rw [h0]
      simp [Nat.mod_eq_of_lt hw16, List.drop_length]
    unfold recv
    rw [hwait, Option.map_some', hfr]
  · intro hw h0 hfin
    have hwait : recvWait (s2 :: env) s = recvWait env s2 := by
      conv_lhs => unfold recvWait
      rw [if_neg (Nat.not_lt.mpr hw), if_pos h0, hfin]
      simp
    unfold recv
    rw [hwait]
  · intro hw h0 hfin
    have hwait : recvWait [] s = none := by
      unfold recvWait
      rw [if_neg (Nat.not_lt.mpr hw), if_pos h0, hfin]
      simp
    unfold recv
    rw [hwait]
    rfl
  · intro hw hpos
    have hwait : recvWait env s = some s := by
      unfold recvWait
      rw [if_neg (Nat.not_lt.mpr hw), if_neg (by omega : ¬ recvAvailable s = 0)]
    have ha : recvAvailable s
        = s.recv_buffer.length - s.recv_param.window := rfl
    refine ⟨?_, rfl, rfl, rfl, ?_⟩
    · unfold recv
      rw [hwait, Option.map_some']
    · intro hlen
      exact Nat.mod_eq_of_lt (by
        have hm : min outLen (recvAvailable s) ≤ recvAvailable s :=
          Nat.min_le_right _ _
        omega)

/-- C6 witness: the nonzero-availability clause applied to a concrete
socket with six available bytes and a three-byte output buffer. -/
theorem C6_recv_witness :
    recv []
        (mkSocket TcpStatus.Established 1 1 10 0 0 4
          [10, 20, 30, 40, 50, 60, 70, 80, 90, 100] [] none) 3
      = some (recvFinish
          (mkSocket TcpStatus.Established 1 1 10 0 0 4
            [10, 20, 30, 40, 50, 60, 70, 80, 90, 100] [] none) 3) ∧
    (recvFinish
        (mkSocket TcpStatus.Established 1 1 10 0 0 4
          [10, 20, 30, 40, 50, 60, 70, 80, 90, 100] [] none) 3).count
      = min 3 (recvAvailable
          (mkSocket TcpStatus.Established 1 1 10 0 0 4
            [10, 20, 30, 40, 50, 60, 70, 80, 90, 100] [] none)) :=
  ⟨((C6_recv _ (mkSocket TcpStatus.Established 1 1 10 0 0 4
      [10, 20, 30, 40, 50, 60, 70, 80, 90, 100] [] none) [] 3).2.2.2
      (by decide) (by decide)).1,
   ((C6_recv _ (mkSocket TcpStatus.Established 1 1 10 0 0 4
      [10, 20, 30, 40, 50, 60, 70, 80, 90, 100] [] none) [] 3).2.2.2
      (by decide) (by decide)).2.1⟩

/-- C10: for a recv copy-out returning n = min(out_buffer.len, available)
with a = available bytes: the output is the first n of the a available
bytes, the remaining a - n available bytes sit at the buffer front in their
original order, recv.window grows by exactly n, every other connection
field (status, send parameters, recv.next, recv.tail, recv.initial_seq,
retransmission queue, listener) and the buffer length are unchanged, and a
zero-length output buffer returns count 0 with the socket unchanged. -/
theorem C10_recv_frame (s : Socket) (outLen : Nat)
    (hw : s.recv_param.window ≤ s.recv_buffer.length)
    (hlen : s.recv_buffer.length < u16Mod) :
    (recvFinish s outLen).count = min outLen (recvAvailable s) ∧
    (recvFinish s outLen).out
      = (s.recv_buffer.take (recvAvailable s)).take
          (min outLen (recvAvailable s)) ∧
    (recvFinish s outLen).socket.recv_buffer.take
        (recvAvailable s - min outLen (recvAvailable s))
      = (s.recv_buffer.take (recvAvailable s)).drop
          (min outLen (recvAvailable s)) ∧
    (recvFinish s outLen).socket.recv_param.window
      = s.recv_param.window + min outLen (recvAvailable s) ∧
    (recvFinish s outLen).socket.status = s.status ∧
    (recvFinish s outLen).socket.send_param = s.send_param ∧
    (recvFinish s outLen).socket.recv_param.next = s.recv_param.next ∧
    (recvFinish s outLen).socket.recv_param.tail = s.recv_param.tail ∧
    (recvFinish s outLen).socket.recv_param.initial_seq
      = s.recv_param.initial_seq ∧
    (recvFinish s outLen).socket.retransmission_queue
      = s.retransmission_queue ∧
    (recvFinish s outLen).socket.listening_socket = s.listening_socket ∧
    (recvFinish s outLen).socket.recv_buffer.length
      = s.recv_buffer.length ∧
    recvFinish s 0 = { count := 0, out := [], socket := s } := by
  have ha : recvAvailable s = s.recv_buffer.length - s.recv_param.window := rfl
  refine ⟨rfl, ?_, ?_, ?_, rfl, rfl, rfl, rfl, rfl, rfl, rfl, ?_, ?_⟩
  · show s.recv_buffer.take (min outLen (recvAvailable s))
      = (s.recv_buffer.take (recvAvailable s)).take
          (min outLen (recvAvailable s))
    rw [List.take_take]
    congr 1
    omega
  · show (s.recv_buffer.drop (min outLen (recvAvailable s))
        ++ s.recv_buffer.drop
            (s.recv_buffer.length - min outLen (recvAvailable s))).take
        (recvAvailable s - min outLen (recvAvailable s))
      = (s.recv_buffer.take (recvAvailable s)).drop
          (min outLen (recvAvailable s))
    rw [List.take_append_of_le_length (by rw [List.length_drop]; omega)]
    rw [List.drop_take]
  · exact Nat.mod_eq_of_lt (by
      have hm : min outLen (recvAvailable s) ≤ recvAvailable s :=
        Nat.min_le_right _ _
      omega)
  · show (s.recv_buffer.drop (min outLen (recvAvailable s))
        ++ s.recv_buffer.drop
            (s.recv_buffer.length - min outLen (recvAvailable s))).length
      = s.recv_buffer.length
    rw [List.length_append, List.length_drop, List.length_drop]
    omega
  · unfold recvFinish
    simp [Nat.mod_eq_of_lt (Nat.lt_of_le_of_lt hw hlen), List.drop_length]

/-- C10 witness: the theorem applied to the concrete socket of the C6
witness, discharging both well-formedness hypotheses. -/
theorem C10_recv_frame_witness :
    (recvFinish
        (mkSocket TcpStatus.Established 1 1 10 0 0 4
          [10, 20, 30, 40, 50, 60, 70, 80, 90, 100] [] none) 3).count
      = min 3 (recvAvailable
          (mkSocket TcpStatus.Established 1 1 10 0 0 4
            [10, 20, 30, 40, 50, 60, 70, 80, 90, 100] [] none)) ∧
    recvFinish
        (mkSocket TcpStatus.Established 1 1 10 0 0 4
          [10, 20, 30, 40, 50, 60, 70, 80, 90, 100] [] none) 0
      = { count := 0, out := [],
          socket := mkSocket TcpStatus.Established 1 1 10 0 0 4
            [10, 20, 30, 40, 50, 60, 70, 80, 90, 100] [] none } :=
  ⟨(C10_recv_frame (mkSocket TcpStatus.Established 1 1 10 0 0 4
      [10, 20, 30, 40, 50, 60, 70, 80, 90, 100] [] none) 3
      (by decide) (by decide)).1,
   (C10_recv_frame (mkSocket TcpStatus.Established 1 1 10 0 0 4
      [10, 20, 30, 40, 50, 60, 70, 80, 90, 100] [] none) 3
      (by decide) (by decide)).2.2.2.2.2.2.2.2.2.2.2.2⟩

/-- C7: one step of the timer scan over a connection's retransmission
queue. An entry with sequence below send.unacked_seq is removed crediting
its payload length to the send window (a u16 addition) and publishing Acked
— plus ConnectionClosed when it carried FIN and the status is LAST-ACK —
and the scan continues; an unacknowledged head younger than the 3-second
timeout stops the scan leaving everything as it was; an expired entry with
fewer than 5 attempts is retransmitted byte-for-byte, restamped with the
current time, its attempt count incremented, moved to the tail, and the
scan stops; an expired entry at the cap is dropped, publishing
ConnectionClosed when it carried FIN and the status is LAST-ACK,
FIN-WAIT-1 or FIN-WAIT-2, and the scan continues. -/
theorem C7_timer (now : Nat) (st : TcpStatus) (a w : Nat)
    (item : RetransEntry) (rest : List RetransEntry) :
    (item.packet.seq < a →
      timerScan now st a w (item :: rest)
        = { timerScan now st a ((w + item.packet.payload.length) % u16Mod)
              rest with
            events := TCPEventKind.Acked ::
              ((if 0 < item.packet.flag &&& FIN ∧ st = TcpStatus.LastAck then
                  [TCPEventKind.ConnectionClosed]
                else [])
                ++ (timerScan now st a
                    ((w + item.packet.payload.length) % u16Mod) rest).events) }) ∧
    (¬ item.packet.seq < a →
      now - item.latest_transmission_time < RETRANSMITTION_TIMEOUT →
      timerScan now st a w (item :: rest)
        = { queue := item :: rest, window := w, events := [], resent := [] }) ∧
    (¬ item.packet.seq < a →
      ¬ now - item.latest_transmission_time < RETRANSMITTION_TIMEOUT →
      item.transmission_count < MAX_TRANSMITTION →
      timerScan now st a w (item :: rest)
        = { queue := rest ++ [{ item with transmission_count := item.transmission_count + 1, latest_transmission_time := now }],
            window := w, events := [], resent := [item.packet] }) ∧
    (¬ item.packet.seq < a →
      ¬ now - item.latest_transmission_time < RETRANSMITTION_TIMEOUT →
      ¬ item.transmission_count < MAX_TRANSMITTION →
      timerScan now st a w (item :: rest)
        = { timerScan now st a w rest with
            events := (if 0 < item.packet.flag &&& FIN ∧
                (st = TcpStatus.LastAck ∨ st = TcpStatus.FinWait1 ∨
                  st = TcpStatus.FinWait2) then
                [TCPEventKind.ConnectionClosed]
              else [])
              ++ (timerScan now st a w rest).events }) := by
  refine ⟨?_, ?_, ?_, ?_⟩
  · intro h1
    conv_lhs => unfold timerScan
    rw [if_pos h1]
    rfl
  · intro h1 h2
    conv_lhs => unfold timerScan
    rw [if_neg h1, if_pos h2]
  · intro h1 h2 h3
    conv_lhs => unfold timerScan
    rw [if_neg h1, if_neg h2, if_pos h3]
  · intro h1 h2 h3
    conv_lhs => unfold timerScan
    rw [if_neg h1, if_neg h2, if_neg h3]

/-- C7 witness: the retransmission clause applied to a concrete expired
entry with one prior attempt, discharging all three hypotheses. -/
theorem C7_timer_witness :
    timerScan 10 TcpStatus.Established 5 100
        [{ packet := { seq := 20, ack := 0, flag := ACK, payload := [1, 2] },
           latest_transmission_time := 0, transmission_count := 1 }]
      = { queue := [{ packet := { seq := 20, ack := 0, flag := ACK, payload := [1, 2] }, latest_transmission_time := 10, transmission_count := 2 }],
          window := 100, events := [],
          resent := [{ seq := 20, ack := 0, flag := ACK, payload := [1, 2] }] } :=
  (C7_timer 10 TcpStatus.Established 5 100
      { packet := { seq := 20, ack := 0, flag := ACK, payload := [1, 2] },
        latest_transmission_time := 0, transmission_count := 1 }
      []).2.2.1 (by decide) (by decide) (by decide)

/-- C5: the send loop emits exactly the bytes of the buffer in order as ACK
segments acknowledging recv.next, each segment's size is the recomputation
min(MSS, window, remaining) (nonzero only once the window opens: with a
positive remainder the computed size is zero exactly when the window is
zero, and a zero size makes the loop consume one Acked wake-up before
recomputing, blocking forever if none arrives); and on the spec's concrete
run — 3000 bytes, peer window 4096, send.next 1001 — it produces exactly
segments of 1460, 1460 and 80 bytes with sequences 1001, 2461 and 3921 and
returns with send.next 4001 and window 1096 without any acknowledgement
having been delivered (the environment is empty). -/
theorem C5_send :
    (∀ fuel env window next recvNext buffer cursor r,
      sendLoop fuel env window next recvNext buffer cursor = some r →
      (r.segs.map OutSeg.payload).flatten = buffer.drop cursor ∧
      ∀ g ∈ r.segs, g.flag = ACK ∧ g.ack = recvNext) ∧
    (∀ env window w sz env2 remaining,
      awaitWindow remaining env window = some (w, sz, env2) →
      sz = computeSendSize w remaining ∧ 0 < sz) ∧
    (∀ window remaining, 0 < remaining →
      (computeSendSize window remaining = 0 ↔ window = 0)) ∧
    (∀ remaining env window w,
      computeSendSize window remaining = 0 →
      awaitWindow remaining (w :: env) window = awaitWindow remaining env w) ∧
    (∀ next recvNext buffer, buffer ≠ [] →
      send [] 0 next recvNext buffer = none) ∧
    (send [] 4096 1001 42 (List.replicate 3000 7)).map
        (fun r => (r.segs.map (fun g => (g.seq, g.ack, g.flag,
          g.payload.length)), r.next, r.window))
      = some ([(1001, 42, ACK, 1460), (2461, 42, ACK, 1460),
          (3921, 42, ACK, 80)], 4001, 1096) := by
  refine ⟨?_, ?_, ?_, ?_, ?_, ?_⟩
  · exact fun fuel => sendLoop_payloads fuel
  · exact fun env window w sz env2 remaining h =>
      awaitWindow_spec remaining env window w sz env2 h
  · intro window remaining hrem
    unfold computeSendSize
    rw [Nat.min_eq_zero_iff, Nat.min_eq_zero_iff]
    unfold MSS
    omega
  · intro remaining env window w h0
    conv_lhs => unfold awaitWindow
    rw [if_pos h0]
  · intro next recvNext buffer hne
    cases buffer with
    | nil => exact absurd rfl hne
    | cons b bs =>
      show sendLoop ((b :: bs).length + 1) [] 0 next recvNext (b :: bs) 0
        = none
      have hsz : computeSendSize 0 ((b :: bs).length - 0) = 0 := by
        unfold computeSendSize
        rw [Nat.zero_min, Nat.min_zero]
      have haw : awaitWindow ((b :: bs).length - 0) [] 0 = none := by
        unfold awaitWindow
        rw [if_pos hsz]
      have hc : (0 : Nat) < (b :: bs).length := Nat.succ_pos bs.length
      unfold sendLoop
      rw [if_pos hc, haw]
  · have hlen : (List.replicate 3000 7).length = 3000 :=
      List.length_replicate ..
    have hc0 : (0 : Nat) < (List.replicate 3000 7).length := by
      rw [hlen]; decide
    have hc1 : (1460 : Nat) < (List.replicate 3000 7).length := by
      rw [hlen]; decide
    have hc2 : (2920 : Nat) < (List.replicate 3000 7).length := by
      rw [hlen]; decide
    have hc3 : ¬ (3000 : Nat) < (List.replicate 3000 7).length := by
      rw [hlen]; decide
    have haw0 : awaitWindow ((List.replicate 3000 7).length - 0) [] 4096
        = some (4096, 1460, []) := by
      rw [hlen, awaitWindow_now 3000 [] 4096 (by decide)]
      decide
    have haw1 : awaitWindow ((List.replicate 3000 7).length - 1460) [] 2636
        = some (2636, 1460, []) := by
      rw [hlen, awaitWindow_now 1540 [] 2636 (by decide)]
      decide
    have haw2 : awaitWindow ((List.replicate 3000 7).length - 2920) [] 1176
        = some (1176, 80, []) := by
      rw [hlen, awaitWindow_now 80 [] 1176 (by decide)]
      decide
    unfold send
    rw [hlen]
    rw [sendLoop_step 3000 [] 4096 1001 42 (List.replicate 3000 7) 0
      4096 1460 [] hc0 haw0]
    norm_num [u32Mod]
    rw [sendLoop_step 2999 [] 2636 2461 42 (List.replicate 3000 7) 1460
      2636 1460 [] hc1 haw1]
    norm_num [u32Mod]
    rw [sendLoop_step 2998 [] 1176 3921 42 (List.replicate 3000 7) 2920
      1176 80 [] hc2 haw2]
    norm_num [u32Mod]
    rw [sendLoop_done 2997 [] 1096 4001 42 (List.replicate 3000 7) 3000 hc3]
    simp [Option.map_some', List.length_take, List.length_drop, hlen]

/-- C5 witness: the zero-window clause applied to a one-byte buffer,
discharging the nonemptiness hypothesis: with window 0 and no Acked
delivery send never returns. -/
theorem C5_send_witness : send [] 0 0 0 [1] = none :=
  C5_send.2.2.2.2.1 0 0 [1] (by decide)

end ToyTcp
